import Mathlib

/-!
Shallow embedding of the Healthlink agent repository.

Source files modelled here:
* `agent.py` — the five-node LangGraph pipeline
  (receive_query → fetch_context → llm_suggest → escalate_if_needed → save_and_respond).
* `agent_graph.py` — the two-node healthcare pipeline
  (fetch_patient_context → generate_response) and `invoke_agent`.
* `backend_api.py` — the `/chat` endpoint validation logic.

Side-effect-free translation: Python dicts with optional keys become structures of
`Option` fields; the LLM backend is an explicit oracle parameter
`List Msg → String`; a backend or lookup exception is an explicit boolean flag
(the `try`/`except` branches of the source become `if` branches on that flag);
logging (`print`) is dropped; the externally visible side effects that the claims
mention (context lookup, model call) are returned as an explicit `Effect` list.
-/

/-- Chat message, mirroring langchain's HumanMessage / AIMessage / SystemMessage. -/
inductive Msg where
  | human (content : String)
  | ai (content : String)
  | system (content : String)
deriving DecidableEq

/-- Model of Python `str.lower()` (character-wise lowercasing; the trigger
phrases and markers in this repository are ASCII, where `Char.toLower`
agrees with Python). -/
def pyLower (s : String) : String := ⟨s.data.map Char.toLower⟩

/-- Model of the Python substring test `needle in hay`. -/
def pyContains (hay needle : String) : Bool := decide (needle.data <:+: hay.data)

/-- Model of Python `str.strip()`: drop leading and trailing whitespace. -/
def pyStrip (s : String) : String :=
  ⟨((s.data.dropWhile fun c => c.isWhitespace).reverse.dropWhile fun c => c.isWhitespace).reverse⟩

/-- Model of Python `s or d` on strings: the empty string is falsy. -/
def pyOr (s d : String) : String := if s = "" then d else s

/-- Model of a Python f-string hole `{x}` where `x : Option String`:
a missing value renders as the text "None". -/
def pyFmt (o : Option String) : String := o.getD "None"

-- ==========================================================================
-- agent.py
-- ==========================================================================

/-- The `lab_results` sub-dict of `mock_load_context` (agent.py). -/
structure LabResults where
  hba1c : Option String := none
deriving DecidableEq

/-- The context dict built by `mock_load_context` (agent.py). -/
structure Ctx where
  patient_id : Option String := none
  name : Option String := none
  recent_visit : Option String := none
  diagnosis : Option String := none
  medication : Option String := none
  lab_results : Option LabResults := none
deriving DecidableEq

/-- The `AgentState` TypedDict of agent.py. `input` is `Option` because
`save_and_respond` sets it to `None`. -/
structure AgentState where
  input : Option String
  intent : String
  context : Ctx
  suggestion : String
  escalate : Bool
  chat_history : List Msg

/-- `mock_recognize_intent` (agent.py, lines 37-46). -/
def mock_recognize_intent (query : String) : String :=
  if pyContains (pyLower query) "suggestion" || pyContains (pyLower query) "tip" then
    "suggestion_request"
  else if pyContains (pyLower query) "explain" || pyContains (pyLower query) "what is" then
    "info_request"
  else
    "general_chat"

/-- `mock_load_context` (agent.py, lines 48-59). The `intent` argument is
accepted but, as in the source, not used in the returned dict. -/
def mock_load_context (patient_id : String) (intent : String) : Ctx :=
  { patient_id := some patient_id
    name := some "Jane Doe"
    recent_visit := some "2025-10-28"
    diagnosis := some "Type 2 Diabetes"
    medication := some "Metformin 500mg"
    lab_results := some { hba1c := some "7.2%" } }

/-- Node 1 `receive_query` (agent.py, lines 72-80). The runner always invokes
it with `input` set; `getD ""` stands for the source's direct key access. -/
def receive_query (state : AgentState) : AgentState :=
  let query := state.input.getD ""
  { state with
      intent := mock_recognize_intent query
      chat_history := state.chat_history ++ [Msg.human query] }

/-- Node 2 `fetch_context` (agent.py, lines 82-88): the patient id is the
hard-coded constant "patient-123". -/
def fetch_context (state : AgentState) : AgentState :=
  let patient_id := "patient-123"
  { state with context := mock_load_context patient_id state.intent }

/-- The f-string prompt built inside `llm_suggest` (agent.py, lines 96-108),
with each `context.get(...)` hole rendered through `pyFmt`. -/
def agentPrompt (context : Ctx) : String :=
  "\n    You are an AI Communicator for a health platform. You are talking to a patient.\n    Your tone must be empathetic, clear, and supportive. DO NOT give medical advice,\n    but you can provide suggestions based on the data.\n    \n    Patient Context:\n    - Name: " ++
  pyFmt context.name ++
  "\n    - Diagnosis: " ++
  pyFmt context.diagnosis ++
  "\n    - Medication: " ++
  pyFmt context.medication ++
  "\n    - Recent HbA1c: " ++
  pyFmt (context.lab_results.bind fun lr => lr.hba1c) ++
  "\n\n    Respond to the user\x27s last message.\n    "

/-- Node 3 `llm_suggest` (agent.py, lines 90-118). The call
`llm.invoke([SystemMessage(prompt)] + history)` is the oracle applied to that
message list. -/
def llm_suggest (oracle : List Msg → String) (state : AgentState) : AgentState :=
  let context := state.context
  let history := state.chat_history
  let prompt := agentPrompt context
  let suggestion := oracle (Msg.system prompt :: history)
  { state with
      suggestion := suggestion
      chat_history := state.chat_history ++ [Msg.ai suggestion] }

/-- The `escalation_keywords` list (agent.py, line 125). -/
def escalation_keywords : List String := ["medication change", "severe pain", "urgent", "dosage"]

/-- The boolean condition of `escalate_if_needed` (agent.py, line 127):
`any(keyword in suggestion.lower() for keyword in escalation_keywords)`. -/
def escalate_check (suggestion : String) : Bool :=
  escalation_keywords.any fun keyword => pyContains (pyLower suggestion) keyword

/-- Node 4-5 `escalate_if_needed` (agent.py, lines 120-132). The
`mock_create_provider_task` call on the true branch only prints, so the
state outcome is the boolean decision. -/
def escalate_if_needed (state : AgentState) : AgentState :=
  { state with escalate := escalate_check state.suggestion }

/-- Node 6 `save_and_respond` (agent.py, lines 134-144): returns
`{"input": None}`. -/
def save_and_respond (state : AgentState) : AgentState :=
  { state with input := none }

/-- The tail of the workflow after ingestion, following the graph edges
(agent.py, lines 160-165). -/
def workflowRest (oracle : List Msg → String) (state : AgentState) : AgentState :=
  save_and_respond (escalate_if_needed (llm_suggest oracle (fetch_context state)))

/-- One full run of the compiled agent.py workflow on
`{"input": query, "chat_history": priorHistory}` (agent.py, lines 160-168). -/
def runAgent (oracle : List Msg → String) (query : String) (priorHistory : List Msg) :
    AgentState :=
  workflowRest oracle (receive_query
    { input := some query
      intent := ""
      context := {}
      suggestion := ""
      escalate := false
      chat_history := priorHistory })

-- ==========================================================================
-- agent_graph.py
-- ==========================================================================

/-- The `patient_context` dict of agent_graph.py. `age` holds the rendered
text of the Python value (the mock int `45` renders as "45" in the f-string;
the degraded profile stores the string "Unknown"). -/
structure PatientContext where
  name : Option String := none
  age : Option String := none
  email : Option String := none
  medical_history : Option String := none
  diagnoses : Option (List String) := none
  medications : Option (List String) := none
  allergies : Option (List String) := none
  last_visit : Option String := none
  blockchain_hash : Option String := none
  error : Option String := none
deriving DecidableEq

/-- The `AgentState` TypedDict of agent_graph.py. -/
structure GState where
  messages : List Msg
  user_id : String
  patient_context : PatientContext
  response : String

/-- Externally visible side effects of a pipeline run, as the claims name
them: the context lookup attempt and the model-backend call. -/
inductive Effect where
  | contextLookup (user_id : String)
  | modelCall
deriving DecidableEq

/-- The mock patient context assembled by the `try` body of
`fetch_patient_context` (agent_graph.py, lines 63-100). -/
def graphMockContext : PatientContext :=
  { name := some "Jane Doe"
    age := some "45"
    email := some "jane.doe@example.com"
    medical_history := some "Type 2 Diabetes diagnosed in 2020"
    diagnoses := some ["Type 2 Diabetes", "Hypertension"]
    medications := some ["Metformin 500mg twice daily", "Lisinopril 10mg daily"]
    allergies := some ["Penicillin"]
    last_visit := some "2025-12-01"
    blockchain_hash := some "0x1234567890abcdef..." }

/-- The minimal fallback context of the `except` branch of
`fetch_patient_context` (agent_graph.py, lines 102-110). -/
def degradedContext (errMsg : String) : PatientContext :=
  { name := some "Patient"
    age := some "Unknown"
    medical_history := some "No data available"
    error := some errMsg }

/-- Node 1 `fetch_patient_context` (agent_graph.py, lines 32-114).
`lookupFails` models whether the lookup in the `try` body raises (with
message `errMsg`); either way the lookup attempt is the recorded effect. -/
def fetch_patient_context (lookupFails : Bool) (errMsg : String) (state : GState) :
    GState × List Effect :=
  if lookupFails then
    ({ state with patient_context := degradedContext errMsg }, [Effect.contextLookup state.user_id])
  else
    ({ state with patient_context := graphMockContext }, [Effect.contextLookup state.user_id])

/-- `", ".join(items)` (agent_graph.py, lines 136-138). -/
def renderJoin (items : List String) : String := String.intercalate ", " items

/-- `patient_context.get("name", "Patient")` (agent_graph.py, line 133). -/
def renderName (o : Option String) : String := o.getD "Patient"

/-- `patient_context.get("age", "Unknown")` (agent_graph.py, line 134). -/
def renderAge (o : Option String) : String := o.getD "Unknown"

/-- `patient_context.get("medical_history", "No medical history available")`
(agent_graph.py, line 135). -/
def renderHistory (o : Option String) : String := o.getD "No medical history available"

/-- `", ".join(patient_context.get("diagnoses", []))` combined with the
interpolation `{diagnoses or "None on record"}` (agent_graph.py, lines 136, 149). -/
def renderDiagnoses (o : Option (List String)) : String :=
  pyOr (renderJoin (o.getD [])) "None on record"

/-- `", ".join(patient_context.get("medications", []))` combined with the
interpolation `{medications or "None on record"}` (agent_graph.py, lines 137, 150). -/
def renderMedications (o : Option (List String)) : String :=
  pyOr (renderJoin (o.getD [])) "None on record"

/-- `", ".join(patient_context.get("allergies", ["None known"]))`
(agent_graph.py, lines 138, 151): no `or` fallback at interpolation. -/
def renderAllergies (o : Option (List String)) : String :=
  renderJoin (o.getD ["None known"])

/-- Fixed prompt segment before the patient name. -/
def sysA : String :=
  "You are a helpful and empathetic medical assistant AI. \n\nYou are currently speaking to **"

/-- Fixed prompt segment between name and age. -/
def sysB : String := "**, who is **"

/-- Fixed prompt segment between age and medical history. -/
def sysC : String :=
  " years old**.\n\n**Patient Medical Context:**\n- **Medical History:** "

/-- Fixed prompt segment before the diagnoses. -/
def sysD : String := "\n- **Current Diagnoses:** "

/-- Fixed prompt segment before the medications. -/
def sysE : String := "\n- **Current Medications:** "

/-- Fixed prompt segment before the allergies. -/
def sysF : String := "\n- **Known Allergies:** "

/-- Fixed guardrail block closing the prompt. -/
def sysG : String :=
  "\n\n**Important Guidelines:**\n1. Provide personalized advice based on the patient\x27s specific medical context\n2. Always be empathetic and supportive in your tone\n3. DO NOT provide medical diagnoses or prescribe medications\n4. If the question requires immediate medical attention, advise the patient to contact their healthcare provider\n5. Reference their specific conditions and medications when relevant\n6. Be clear that you are an AI assistant and not a replacement for professional medical advice\n\nAnswer the patient\x27s question based on their medical context while following these guidelines."

/-- The dynamic system prompt (the Prompt Composer) built inside
`generate_response` (agent_graph.py, lines 132-161). -/
def system_prompt (patient_context : PatientContext) : String :=
  sysA ++ renderName patient_context.name ++
  sysB ++ renderAge patient_context.age ++
  sysC ++ renderHistory patient_context.medical_history ++
  sysD ++ renderDiagnoses patient_context.diagnoses ++
  sysE ++ renderMedications patient_context.medications ++
  sysF ++ renderAllergies patient_context.allergies ++
  sysG

/-- The fixed fallback reply of the `except` branch of `generate_response`
(agent_graph.py, line 202). -/
def error_response : String :=
  "I apologize, but I\x27m having trouble processing your request right now. Please try again or contact your healthcare provider if this is urgent."

/-- Node 2 `generate_response` (agent_graph.py, lines 120-207). `invokeFails`
models whether the LLM initialization/invocation in the `try` body raises. -/
def generate_response (invokeFails : Bool) (oracle : List Msg → String) (state : GState) :
    GState × List Effect :=
  let prompt := system_prompt state.patient_context
  if invokeFails then
    ({ state with
        messages := state.messages ++ [Msg.ai error_response]
        response := error_response }, [Effect.modelCall])
  else
    let full_messages := Msg.system prompt :: state.messages
    let ai_response := oracle full_messages
    ({ state with
        messages := state.messages ++ [Msg.ai ai_response]
        response := ai_response }, [Effect.modelCall])

/-- The result dict of `invoke_agent` (agent_graph.py, lines 285-290), which
is also the shape of the `/chat` endpoint's `ChatResponse` (models.py). -/
structure AgentResult where
  response : String
  user_id : String
  thread_id : String
  patient_context : PatientContext
deriving DecidableEq

/-- `invoke_agent` (agent_graph.py, lines 250-294): build the initial state,
run fetch_patient_context then generate_response (the graph edges of
`create_healthcare_agent`), and project the result dict. -/
def invoke_agent (lookupFails : Bool) (errMsg : String) (invokeFails : Bool)
    (oracle : List Msg → String) (user_id message : String) (thread_id : Option String) :
    AgentResult × List Effect :=
  let initial_state : GState :=
    { messages := [Msg.human message]
      user_id := user_id
      patient_context := {}
      response := "" }
  let r1 := fetch_patient_context lookupFails errMsg initial_state
  let r2 := generate_response invokeFails oracle r1.1
  ({ response := r2.1.response
     user_id := user_id
     thread_id := pyOr (thread_id.getD "") ("thread-" ++ user_id)
     patient_context := r2.1.patient_context }, r1.2 ++ r2.2)

-- ==========================================================================
-- backend_api.py
-- ==========================================================================

/-- The HTTP 400 validation failures raised by the `/chat` endpoint
(backend_api.py, lines 115-125). -/
inductive ChatError where
  | emptyUserId
  | emptyMessage
deriving DecidableEq

/-- The `/chat` endpoint handler `chat` (backend_api.py, lines 93-177):
validate `user_id` and `message` (`not x or not x.strip()`), generate a
thread id when none is supplied (`uuidHex8` models the random uuid suffix),
then call `invoke_agent`. Validation failures return before any pipeline
step runs, so their effect list is empty. -/
def chat (lookupFails : Bool) (errMsg : String) (invokeFails : Bool)
    (oracle : List Msg → String) (uuidHex8 : String)
    (user_id message : String) (thread_id : Option String) :
    Except ChatError AgentResult × List Effect :=
  if user_id == "" || pyStrip user_id == "" then
    (Except.error ChatError.emptyUserId, [])
  else if message == "" || pyStrip message == "" then
    (Except.error ChatError.emptyMessage, [])
  else
    let tid := pyOr (thread_id.getD "") ("thread-" ++ user_id ++ "-" ++ uuidHex8)
    let r := invoke_agent lookupFails errMsg invokeFails oracle user_id message (some tid)
    (Except.ok r.1, r.2)

-- ==========================================================================
-- Helper definitions and lemmas shared by the claim theorems
-- ==========================================================================

/-- Case-insensitive substring containment, as the spec words it: the phrase
occurs in the reply when both are lowercased. -/
def ciContains (reply phrase : String) : Bool :=
  pyContains (pyLower reply) (pyLower phrase)

/-- Every configured trigger phrase is already lowercase. -/
theorem pyLower_keywords : ∀ k ∈ escalation_keywords, pyLower k = k := by decide

/-- Containment lifts from the underlying list infix relation. -/
theorem pyContains_of_infix {hay needle : String} (h : needle.data <:+: hay.data) :
    pyContains hay needle = true :=
  decide_eq_true h

/-- Containment in the left part of a concatenation. -/
theorem pyContains_appL (a b m : String) (h : pyContains a m = true) :
    pyContains (a ++ b) m = true := by
  have h' : m.data <:+: a.data := of_decide_eq_true h
  apply pyContains_of_infix
  rw [String.data_append]
  exact h'.trans ⟨[], b.data, by simp⟩

/-- Containment in the right part of a concatenation. -/
theorem pyContains_appR (a b m : String) (h : pyContains b m = true) :
    pyContains (a ++ b) m = true := by
  have h' : m.data <:+: b.data := of_decide_eq_true h
  apply pyContains_of_infix
  rw [String.data_append]
  exact h'.trans ⟨a.data, [], by simp⟩

/-- Every string contains itself. -/
theorem pyContains_self (m : String) : pyContains m m = true :=
  pyContains_of_infix ⟨[], [], by simp⟩

/-- A missing name renders as "Patient". -/
theorem renderName_none : renderName none = "Patient" := rfl

/-- A missing age renders as "Unknown". -/
theorem renderAge_none : renderAge none = "Unknown" := rfl

/-- A missing medical history renders as its explicit placeholder. -/
theorem renderHistory_none : renderHistory none = "No medical history available" := rfl

/-- Missing diagnoses render as "None on record". -/
theorem renderDiagnoses_none : renderDiagnoses none = "None on record" := rfl

/-- Missing medications render as "None on record". -/
theorem renderMedications_none : renderMedications none = "None on record" := rfl

/-- Missing allergies render as "None known". -/
theorem renderAllergies_none : renderAllergies none = "None known" := rfl

set_option maxRecDepth 40000 in
/-- The fixed fallback reply trips the escalation keyword scan (the phrase
"urgent" occurs in it). -/
theorem escalate_check_error_response : escalate_check error_response = true := by decide

/-- On a failing model invocation, `invoke_agent` reports the fixed fallback
reply, whatever the context lookup did. -/
theorem invoke_agent_fail_response (lookupFails : Bool) (errMsg : String)
    (oracle : List Msg → String) (user_id message : String) (thread_id : Option String) :
    (invoke_agent lookupFails errMsg true oracle user_id message thread_id).1.response =
      error_response := by
  cases lookupFails <;> rfl

/-- Claim C1: the Safety Gate escalates exactly when the reply contains,
case-insensitively, one of the configured trigger phrases as a substring
(no stemming, no word boundary), and the node's decision is a function of
the reply text alone. -/
theorem safety_gate_escalates_iff_trigger_substring :
    (∀ r : String, escalate_check r = true ↔
      ∃ k ∈ escalation_keywords, ciContains r k = true) ∧
    (∀ s : AgentState, (escalate_if_needed s).escalate = escalate_check s.suggestion) := by
  constructor
  · intro r
    constructor
    · intro h
      rw [escalate_check, List.any_eq_true] at h
      obtain ⟨k, hk, hc⟩ := h
      refine ⟨k, hk, ?_⟩
      rw [ciContains, pyLower_keywords k hk]
      exact hc
    · rintro ⟨k, hk, hc⟩
      rw [ciContains, pyLower_keywords k hk] at hc
      rw [escalate_check, List.any_eq_true]
      exact ⟨k, hk, hc⟩
  · intro s
    rfl

/-- Claim C2 counterexample: the fixed fallback reply itself contains the
trigger phrase "urgent", so the Safety Gate evaluating the fallback text
escalates instead of returning false. -/
theorem fallback_reply_contains_trigger_phrase :
    escalate_check error_response = true ∧ "urgent" ∈ escalation_keywords :=
  ⟨escalate_check_error_response, by decide⟩

/-- Claim C2 (amended): if the Model Invoker fails, the run still completes
and the reply equals the fixed fallback string; but that fallback contains
the trigger phrase "urgent", so the Safety Gate evaluated on it escalates. -/
theorem invoker_failure_fallback_reply_and_gate_escalates
    (lookupFails : Bool) (errMsg : String) (oracle : List Msg → String)
    (user_id message : String) (thread_id : Option String) :
    (invoke_agent lookupFails errMsg true oracle user_id message thread_id).1.response =
      error_response ∧
    escalate_check
      (invoke_agent lookupFails errMsg true oracle user_id message thread_id).1.response =
      true := by
  refine ⟨invoke_agent_fail_response lookupFails errMsg oracle user_id message thread_id, ?_⟩
  rw [invoke_agent_fail_response lookupFails errMsg oracle user_id message thread_id]
  exact escalate_check_error_response

/-- Claim C9 counterexample: `mock_load_context` echoes the patient id into
the returned profile, so two different identifiers resolve to different
profiles. -/
theorem mock_load_context_depends_on_patient_id :
    mock_load_context "u1" "general_chat" ≠ mock_load_context "u2" "general_chat" := by
  decide

/-- Claim C9 (amended): a successful context resolution is constant except
for the `patient_id` field, which echoes the identifier passed in:
`agent_graph.py`'s resolver returns the same fixed profile whatever the
state (hence whatever the user id), and `agent.py`'s resolver fixes every
field but `patient_id`, which the pipeline always instantiates with the
hard-coded "patient-123". -/
theorem context_resolution_constant_profile :
    (∀ pid intent : String, mock_load_context pid intent =
      { patient_id := some pid
        name := some "Jane Doe"
        recent_visit := some "2025-10-28"
        diagnosis := some "Type 2 Diabetes"
        medication := some "Metformin 500mg"
        lab_results := some { hba1c := some "7.2%" } }) ∧
    (∀ (errMsg : String) (s s' : GState),
      (fetch_patient_context false errMsg s).1.patient_context =
        (fetch_patient_context false errMsg s').1.patient_context) ∧
    (∀ s : AgentState, (fetch_context s).context.patient_id = some "patient-123") :=
  ⟨fun _ _ => rfl, fun _ _ _ => rfl, fun _ => rfl⟩

/-- Claim C3: when the context lookup fails, the resolver returns the
degraded profile (name "Patient", medical history "No data available", an
error marker) instead of raising, and the run still produces a non-error
result. -/
theorem context_failure_degraded_profile_run_succeeds
    (errMsg : String) (invokeFails : Bool) (oracle : List Msg → String)
    (uuidHex8 user_id message : String) (thread_id : Option String)
    (hu : (user_id == "" || pyStrip user_id == "") = false)
    (hm : (message == "" || pyStrip message == "") = false) :
    ∃ r : AgentResult,
      (chat true errMsg invokeFails oracle uuidHex8 user_id message thread_id).1 =
        Except.ok r ∧
      r.patient_context.name = some "Patient" ∧
      r.patient_context.medical_history = some "No data available" ∧
      r.patient_context.error = some errMsg := by
  simp only [chat, hu, hm, Bool.false_eq_true, if_false]
  cases invokeFails <;> exact ⟨_, rfl, rfl, rfl, rfl⟩

/-- Claim C3 witness: a concrete failing-lookup run. -/
theorem context_failure_degraded_profile_run_succeeds_witness :
    ∃ r : AgentResult,
      (chat true "db down" false (fun _ => "ok") "abcd1234" "patient-1" "hello" none).1 =
        Except.ok r ∧
      r.patient_context.name = some "Patient" ∧
      r.patient_context.medical_history = some "No data available" ∧
      r.patient_context.error = some "db down" :=
  context_failure_degraded_profile_run_succeeds "db down" false (fun _ => "ok")
    "abcd1234" "patient-1" "hello" none (by decide) (by decide)

/-- Claim C4: a run appends exactly the incoming user message and the
assistant reply to the prior history (length + 2), and no pipeline node ever
shrinks the history. -/
theorem run_appends_exactly_user_and_assistant_messages
    (oracle : List Msg → String) (query : String) (priorHistory : List Msg) :
    (runAgent oracle query priorHistory).chat_history =
      priorHistory ++ [Msg.human query, Msg.ai (runAgent oracle query priorHistory).suggestion] ∧
    (runAgent oracle query priorHistory).chat_history.length = priorHistory.length + 2 ∧
    (∀ s : AgentState, s.chat_history <+: (receive_query s).chat_history) ∧
    (∀ s : AgentState, s.chat_history <+: (fetch_context s).chat_history) ∧
    (∀ (o : List Msg → String) (s : AgentState), s.chat_history <+: (llm_suggest o s).chat_history) ∧
    (∀ s : AgentState, s.chat_history <+: (escalate_if_needed s).chat_history) ∧
    (∀ s : AgentState, s.chat_history <+: (save_and_respond s).chat_history) := by
  refine ⟨?_, ?_, ?_, ?_, ?_, ?_, ?_⟩
  · simp [runAgent, workflowRest, receive_query, fetch_context, llm_suggest,
      escalate_if_needed, save_and_respond]
  · simp [runAgent, workflowRest, receive_query, fetch_context, llm_suggest,
      escalate_if_needed, save_and_respond]
  · exact fun s => ⟨[Msg.human (s.input.getD "")], rfl⟩
  · exact fun s => ⟨[], by simp [fetch_context]⟩
  · exact fun o s => ⟨[Msg.ai (o (Msg.system (agentPrompt s.context) :: s.chat_history))], rfl⟩
  · exact fun s => ⟨[], by simp [escalate_if_needed]⟩
  · exact fun s => ⟨[], by simp [save_and_respond]⟩

/-- Claim C5 counterexample: with a backend that returns the empty string the
run's reply is empty, so `run` does not always return a non-empty reply. -/
theorem empty_backend_reply_gives_empty_reply :
    (runAgent (fun _ => "") "hi" []).suggestion = "" := rfl

/-- Claim C5 (amended): `run` always terminates (it is a total function of
its inputs and backend), and its reply is non-empty provided the backend
returns non-empty text; the reply is passed through verbatim. -/
theorem run_reply_nonempty_of_backend_nonempty
    (oracle : List Msg → String) (query : String) (priorHistory : List Msg)
    (h : ∀ ms : List Msg, oracle ms ≠ "") :
    (runAgent oracle query priorHistory).suggestion ≠ "" :=
  h _

/-- Claim C5 witness: a concrete non-empty backend yields a non-empty reply. -/
theorem run_reply_nonempty_of_backend_nonempty_witness :
    (runAgent (fun _ => "Stay hydrated.") "hi" []).suggestion ≠ "" :=
  run_reply_nonempty_of_backend_nonempty (fun _ => "Stay hydrated.") "hi" []
    (fun _ => by show "Stay hydrated." ≠ ""; decide)

/-- Claim C6: the composed system prompt is a deterministic function of the
profile attributes it renders — two profiles agreeing on name, age, medical
history, diagnoses, medications and allergies compose to byte-identical
prompts (the composer reads nothing else and performs no effects). -/
theorem system_prompt_depends_only_on_rendered_fields
    (p q : PatientContext)
    (hname : p.name = q.name) (hage : p.age = q.age)
    (hhist : p.medical_history = q.medical_history)
    (hdiag : p.diagnoses = q.diagnoses)
    (hmed : p.medications = q.medications)
    (hall : p.allergies = q.allergies) :
    system_prompt p = system_prompt q := by
  simp only [system_prompt, hname, hage, hhist, hdiag, hmed, hall]

/-- Claim C6 witness: two concrete profiles differing only in `email`
compose to the same prompt. -/
theorem system_prompt_depends_only_on_rendered_fields_witness :
    system_prompt { graphMockContext with email := some "other@example.com" } =
      system_prompt { graphMockContext with email := none } :=
  system_prompt_depends_only_on_rendered_fields _ _ rfl rfl rfl rfl rfl rfl

/-- Claim C7: each profile attribute the composer renders has an explicit
placeholder when missing — "Patient" for the name, "Unknown" for the age,
"No medical history available" for the history, "None on record" for
diagnoses and for medications, "None known" for allergies — rather than
being silently omitted from the prompt. -/
theorem missing_attributes_render_explicit_markers (p : PatientContext) :
    (p.name = none → pyContains (system_prompt p) "Patient" = true) ∧
    (p.age = none → pyContains (system_prompt p) "Unknown" = true) ∧
    (p.medical_history = none →
      pyContains (system_prompt p) "No medical history available" = true) ∧
    (p.diagnoses = none → pyContains (system_prompt p) "None on record" = true) ∧
    (p.medications = none → pyContains (system_prompt p) "None on record" = true) ∧
    (p.allergies = none → pyContains (system_prompt p) "None known" = true) := by
  refine ⟨?_, ?_, ?_, ?_, ?_, ?_⟩
  · intro h
    simp only [system_prompt, h, renderName_none]
    iterate 11 apply pyContains_appL
    exact pyContains_appR _ _ _ (pyContains_self _)
  · intro h
    simp only [system_prompt, h, renderAge_none]
    iterate 9 apply pyContains_appL
    exact pyContains_appR _ _ _ (pyContains_self _)
  · intro h
    simp only [system_prompt, h, renderHistory_none]
    iterate 7 apply pyContains_appL
    exact pyContains_appR _ _ _ (pyContains_self _)
  · intro h
    simp only [system_prompt, h, renderDiagnoses_none]
    iterate 5 apply pyContains_appL
    exact pyContains_appR _ _ _ (pyContains_self _)
  · intro h
    simp only [system_prompt, h, renderMedications_none]
    iterate 3 apply pyContains_appL
    exact pyContains_appR _ _ _ (pyContains_self _)
  · intro h
    simp only [system_prompt, h, renderAllergies_none]
    iterate 1 apply pyContains_appL
    exact pyContains_appR _ _ _ (pyContains_self _)

/-- Claim C7 witness: on the empty profile every placeholder appears in the
composed prompt. -/
theorem missing_attributes_render_explicit_markers_witness :
    pyContains (system_prompt {}) "Patient" = true ∧
    pyContains (system_prompt {}) "Unknown" = true ∧
    pyContains (system_prompt {}) "No medical history available" = true ∧
    pyContains (system_prompt {}) "None on record" = true ∧
    pyContains (system_prompt {}) "None on record" = true ∧
    pyContains (system_prompt {}) "None known" = true :=
  ⟨(missing_attributes_render_explicit_markers {}).1 rfl,
   (missing_attributes_render_explicit_markers {}).2.1 rfl,
   (missing_attributes_render_explicit_markers {}).2.2.1 rfl,
   (missing_attributes_render_explicit_markers {}).2.2.2.1 rfl,
   (missing_attributes_render_explicit_markers {}).2.2.2.2.1 rfl,
   (missing_attributes_render_explicit_markers {}).2.2.2.2.2 rfl⟩

/-- Claim C8: an empty `user_id` is rejected by the endpoint's validation
with the invalid-input error before any pipeline step runs: the result is
the 400 error and the recorded side-effect list is empty. -/
theorem empty_user_id_rejected_no_effects
    (lookupFails : Bool) (errMsg : String) (invokeFails : Bool)
    (oracle : List Msg → String) (uuidHex8 message : String) (thread_id : Option String) :
    chat lookupFails errMsg invokeFails oracle uuidHex8 "" message thread_id =
      (Except.error ChatError.emptyUserId, []) := rfl

/-- The intent classifier as the claim words it: "suggestion_request" when
the lowercased message contains "suggestion" or "tip", otherwise
"info_request" when it contains "explain" or "what is", otherwise
"general_chat". Stated from the spec for comparison with the source's
`mock_recognize_intent`. -/
def claimIntent (message : String) : String :=
  if pyContains (pyLower message) "suggestion" || pyContains (pyLower message) "tip" then
    "suggestion_request"
  else if pyContains (pyLower message) "explain" || pyContains (pyLower message) "what is" then
    "info_request"
  else
    "general_chat"

/-- Claim C10: the first step classifies every message into exactly one of
the three intents, by the stated containment rules, and the intent has no
effect downstream: the loaded context ignores it, and the whole post-ingestion
pipeline commutes with overwriting the intent field. -/
theorem intent_classification_and_no_downstream_effect :
    (∀ q : String, mock_recognize_intent q = claimIntent q) ∧
    (∀ q : String, mock_recognize_intent q = "suggestion_request" ∨
      mock_recognize_intent q = "info_request" ∨
      mock_recognize_intent q = "general_chat") ∧
    (∀ pid i₁ i₂ : String, mock_load_context pid i₁ = mock_load_context pid i₂) ∧
    (∀ (oracle : List Msg → String) (s : AgentState) (i : String),
      workflowRest oracle { s with intent := i } =
        { workflowRest oracle s with intent := i }) := by
  refine ⟨fun q => rfl, ?_, fun pid i₁ i₂ => rfl, fun oracle s i => rfl⟩
  intro q
  rw [mock_recognize_intent]
  split
  · exact Or.inl rfl
  · split
    · exact Or.inr (Or.inl rfl)
    · exact Or.inr (Or.inr rfl)
